import Mathlib

/-!
Verification of the span-annotation core of the repository
(`src/hyper_wrapper.rs`): the two functions `span_for_request` and
`annotate_span_for_response`, which map an HTTP request/response pair to
OpenTelemetry span attributes and a terminal status.

The shallow embedding mirrors the Rust source line by line.  The hyper/http
types it reads from are modelled by their observable accessors:
a request exposes `method` (the method token's textual form), a URI with
optional `scheme` (`scheme_str()`), optional `host` (`host()`), optional
`pathAndQuery` (`path_and_query()` serialized, path plus query) and `full`
(`to_string()`), and a `version`; a response exposes a numeric status code.
Both carry an opaque body of arbitrary type, exactly like the Rust
generics `Request<T>` / `Response<T>`.
-/

namespace HyperWrapper

/-- hyper's protocol-version enumeration (`hyper::Version`): HTTP/0.9,
HTTP/1.0, HTTP/1.1, HTTP/2 and HTTP/3. -/
inductive HttpVersion where
  | http09
  | http10
  | http11
  | http2
  | http3
  deriving DecidableEq, Repr

/-- The observable components of a parsed `hyper::Uri`:
`scheme` is `scheme_str()`, `host` is `host()`, `pathAndQuery` is the
serialized `path_and_query()` component (path plus the query string when one
is present), `full` is `to_string()`. -/
structure Uri where
  scheme : Option String
  host : Option String
  pathAndQuery : Option String
  full : String
  deriving DecidableEq, Repr

/-- The fields of `hyper::Request<T>` read by the wrapper, plus the opaque
body of type `T` (never read). -/
structure Request (T : Type) where
  method : String
  uri : Uri
  version : HttpVersion
  body : T

/-- The fields of `hyper::Response<T>` read by the wrapper: the numeric
status code (`status().as_u16()`), plus the opaque body of type `T`. -/
structure Response (T : Type) where
  status : Nat
  body : T

/-- OpenTelemetry span terminal status as the wrapper uses it: either the
default (unset) or an error with a description. -/
inductive SpanStatus where
  | unset
  | error (description : String)
  deriving DecidableEq, Repr

/-- The observable state of an OpenTelemetry `BoxedSpan`: its name, the
attributes written onto it (in write order), and its terminal status. -/
structure BoxedSpan where
  name : String
  attrs : List (String × String)
  status : SpanStatus
  deriving DecidableEq, Repr

/-- `tracer.start(name)`: a fresh span with the given name, no attributes
and the default (unset) status. -/
def startSpan (name : String) : BoxedSpan :=
  { name := name, attrs := [], status := .unset }

/-- `span.set_attribute(KeyValue::new(key, value))`: append the pair to the
span's attribute list. -/
def setAttribute (s : BoxedSpan) (key value : String) : BoxedSpan :=
  { s with attrs := s.attrs ++ [(key, value)] }

/-- `span.set_status(code, description)`. -/
def setStatus (s : BoxedSpan) (st : SpanStatus) : BoxedSpan :=
  { s with status := st }

/-- First-match lookup of an attribute key in a span's attribute list. -/
def lookupAttr (attrs : List (String × String)) (key : String) : Option String :=
  match attrs with
  | [] => none
  | (k, v) :: rest => if k = key then some v else lookupAttr rest key

/-- The `match req.version()` expression of `span_for_request`
(src/hyper_wrapper.rs lines 31-37): HTTP/1.0, 1.1, 2, 3 map to their fixed
strings, anything else (HTTP/0.9) to "unknown". -/
def serializedVersion : HttpVersion → String
  | .http10 => "1.0"
  | .http11 => "1.1"
  | .http2 => "2"
  | .http3 => "3"
  | _ => "unknown"

/-- Embedding of `span_for_request` (src/hyper_wrapper.rs lines 11-44).
Starts a span named "HTTP {method} {host or <unknown>}" and writes the
attributes in the source's order: span.kind, http.method, http.url, then
http.target / http.host / http.scheme each only when the corresponding URI
component is present, then http.flavor. -/
def span_for_request {T : Type} (req : Request T) : BoxedSpan :=
  let span := startSpan ("HTTP " ++ req.method ++ " " ++ req.uri.host.getD "<unknown>")
  let span := setAttribute span "span.kind" "client"
  let span := setAttribute span "http.method" req.method
  let span := setAttribute span "http.url" req.uri.full
  let span :=
    match req.uri.pathAndQuery with
    | some pq => setAttribute span "http.target" pq
    | none => span
  let span :=
    match req.uri.host with
    | some host => setAttribute span "http.host" host
    | none => span
  let span :=
    match req.uri.scheme with
    | some scheme => setAttribute span "http.scheme" scheme
    | none => span
  setAttribute span "http.flavor" (serializedVersion req.version)

/-- The canonical reason phrase table of `http::StatusCode::canonical_reason`
(the http crate hyper re-exports): defined exactly for the registered status
codes, `none` for every other numeric code. -/
def canonicalReason : Nat → Option String
  | 100 => some "Continue"
  | 101 => some "Switching Protocols"
  | 102 => some "Processing"
  | 200 => some "OK"
  | 201 => some "Created"
  | 202 => some "Accepted"
  | 203 => some "Non-Authoritative Information"
  | 204 => some "No Content"
  | 205 => some "Reset Content"
  | 206 => some "Partial Content"
  | 207 => some "Multi-Status"
  | 208 => some "Already Reported"
  | 226 => some "IM Used"
  | 300 => some "Multiple Choices"
  | 301 => some "Moved Permanently"
  | 302 => some "Found"
  | 303 => some "See Other"
  | 304 => some "Not Modified"
  | 305 => some "Use Proxy"
  | 307 => some "Temporary Redirect"
  | 308 => some "Permanent Redirect"
  | 400 => some "Bad Request"
  | 401 => some "Unauthorized"
  | 402 => some "Payment Required"
  | 403 => some "Forbidden"
  | 404 => some "Not Found"
  | 405 => some "Method Not Allowed"
  | 406 => some "Not Acceptable"
  | 407 => some "Proxy Authentication Required"
  | 408 => some "Request Timeout"
  | 409 => some "Conflict"
  | 410 => some "Gone"
  | 411 => some "Length Required"
  | 412 => some "Precondition Failed"
  | 413 => some "Payload Too Large"
  | 414 => some "URI Too Long"
  | 415 => some "Unsupported Media Type"
  | 416 => some "Range Not Satisfiable"
  | 417 => some "Expectation Failed"
  | 418 => some "I\x27m a teapot"
  | 421 => some "Misdirected Request"
  | 422 => some "Unprocessable Entity"
  | 423 => some "Locked"
  | 424 => some "Failed Dependency"
  | 426 => some "Upgrade Required"
  | 428 => some "Precondition Required"
  | 429 => some "Too Many Requests"
  | 431 => some "Request Header Fields Too Large"
  | 451 => some "Unavailable For Legal Reasons"
  | 500 => some "Internal Server Error"
  | 501 => some "Not Implemented"
  | 502 => some "Bad Gateway"
  | 503 => some "Service Unavailable"
  | 504 => some "Gateway Timeout"
  | 505 => some "HTTP Version Not Supported"
  | 506 => some "Variant Also Negotiates"
  | 507 => some "Insufficient Storage"
  | 508 => some "Loop Detected"
  | 510 => some "Not Extended"
  | 511 => some "Network Authentication Required"
  | _ => none

/-- Embedding of `annotate_span_for_response` (src/hyper_wrapper.rs lines
48-65): writes http.status_code (decimal string of the status), writes
http.status_text when a canonical reason phrase exists, and sets an error
status with the status code's decimal string as description exactly when
the status differs from 200 (`hyper::StatusCode::OK`). -/
def annotate_span_for_response {T : Type} (span : BoxedSpan) (response : Response T) :
    BoxedSpan :=
  let status := response.status
  let span := setAttribute span "http.status_code" (toString status)
  let span :=
    match canonicalReason status with
    | some reason => setAttribute span "http.status_text" reason
    | none => span
  if status ≠ 200 then setStatus span (.error (toString status)) else span

/-- The attribute list written by `span_for_request`, as one closed form. -/
theorem span_for_request_attrs {T : Type} (req : Request T) :
    (span_for_request req).attrs =
      [("span.kind", "client"), ("http.method", req.method), ("http.url", req.uri.full)]
        ++ (req.uri.pathAndQuery.elim [] fun pq => [("http.target", pq)])
        ++ (req.uri.host.elim [] fun h => [("http.host", h)])
        ++ (req.uri.scheme.elim [] fun s => [("http.scheme", s)])
        ++ [("http.flavor", serializedVersion req.version)] := by
  rcases req with ⟨m, ⟨sc, ho, pq, fu⟩, v, b⟩
  cases sc <;> cases ho <;> cases pq <;> rfl

/-- Lookup distributes over append: the left list wins when it has the key. -/
theorem lookupAttr_append (l₁ l₂ : List (String × String)) (k : String) :
    lookupAttr (l₁ ++ l₂) k = (lookupAttr l₁ k).elim (lookupAttr l₂ k) some := by
  induction l₁ with
  | nil => rfl
  | cons hd tl ih =>
    obtain ⟨k', v'⟩ := hd
    by_cases h : k' = k <;> simp [lookupAttr, h, ih]

/-- The span returned by `span_for_request` carries the default status. -/
theorem span_for_request_status {T : Type} (req : Request T) :
    (span_for_request req).status = SpanStatus.unset := by
  rcases req with ⟨m, ⟨sc, ho, pq, fu⟩, v, b⟩
  cases sc <;> cases ho <;> cases pq <;> rfl

/-- The terminal status written by `annotate_span_for_response`, closed form. -/
theorem annotate_status {T : Type} (sp : BoxedSpan) (resp : Response T) :
    (annotate_span_for_response sp resp).status =
      if resp.status = 200 then sp.status
      else SpanStatus.error (toString resp.status) := by
  unfold annotate_span_for_response
  by_cases h : resp.status = 200
  · simp only [h, if_pos]
    cases canonicalReason 200 <;> simp [setAttribute, setStatus]
  · cases hc : canonicalReason resp.status <;> simp [hc, h, setAttribute, setStatus]

/-- C2: for every request, `span_for_request` starts the span with name
"HTTP <METHOD> <HOST>", where the host segment is the URI's host when one
exists and the literal token "<unknown>" otherwise. -/
theorem c2_span_name {T : Type} (req : Request T) :
    (span_for_request req).name =
      "HTTP " ++ req.method ++ " " ++ req.uri.host.getD "<unknown>" := by
  rcases req with ⟨m, ⟨sc, ho, pq, fu⟩, v, b⟩
  cases sc <;> cases ho <;> cases pq <;> rfl

/-- C1: for every response processed by `annotate_span_for_response` on a
span produced by `span_for_request`, the resulting terminal status is the
default (unset) when the status code is exactly 200, and an error whose
description is the decimal string of the status code for every other
status value. -/
theorem c1_status_resolution {T U : Type} (req : Request T) (resp : Response U) :
    (annotate_span_for_response (span_for_request req) resp).status =
      if resp.status = 200 then SpanStatus.unset
      else SpanStatus.error (toString resp.status) := by
  rw [annotate_status, span_for_request_status]

/-- C4: for every request, the attribute http.target is written by
`span_for_request` if and only if the URI has a path-and-query component,
and when written it equals that component exactly (the component includes
the query string when one is present). -/
theorem c4_http_target {T : Type} (req : Request T) :
    lookupAttr (span_for_request req).attrs "http.target" = req.uri.pathAndQuery := by
  rcases req with ⟨m, ⟨sc, ho, pq, fu⟩, v, b⟩
  cases sc <;> cases ho <;> cases pq <;> rfl

/-- C9: `span_for_request` never sets the span's terminal status: the span
it returns still has the default (unset) status; and
`annotate_span_for_response` leaves the input span's status untouched for a
200 response and transitions it (to an error carrying the decimal status
string) exactly for non-200 responses. -/
theorem c9_begin_leaves_status_unset :
    (∀ (T : Type) (req : Request T), (span_for_request req).status = SpanStatus.unset)
      ∧ (∀ (T : Type) (sp : BoxedSpan) (resp : Response T),
          (annotate_span_for_response sp resp).status =
            if resp.status = 200 then sp.status
            else SpanStatus.error (toString resp.status)) := by
  exact ⟨fun T req => span_for_request_status req,
    fun T sp resp => annotate_status sp resp⟩

/-- The attribute list written by `annotate_span_for_response`, closed form:
the input span's attributes, then http.status_code, then http.status_text
exactly when a canonical reason phrase exists. -/
theorem annotate_attrs {T : Type} (sp : BoxedSpan) (resp : Response T) :
    (annotate_span_for_response sp resp).attrs =
      sp.attrs ++ [("http.status_code", toString resp.status)]
        ++ ((canonicalReason resp.status).elim [] fun r => [("http.status_text", r)]) := by
  unfold annotate_span_for_response
  by_cases h : resp.status = 200
  · simp only [h]
    cases canonicalReason 200 <;> simp [setAttribute, setStatus]
  · cases hc : canonicalReason resp.status <;> simp [hc, h, setAttribute, setStatus]

/-- `span_for_request` never writes the response-phase keys. -/
theorem span_lookup_response_keys {T : Type} (req : Request T) :
    lookupAttr (span_for_request req).attrs "http.status_text" = none
      ∧ lookupAttr (span_for_request req).attrs "http.status_code" = none := by
  rcases req with ⟨m, ⟨sc, ho, pq, fu⟩, v, b⟩
  cases sc <;> cases ho <;> cases pq <;> exact ⟨rfl, rfl⟩

/-- C3: for every request, `span_for_request` writes http.flavor to the
string `serializedVersion` assigns the protocol version; versions 1.0, 1.1,
2, 3 map to "1.0", "1.1", "2", "3", the version outside that closed set
(HTTP/0.9) maps to "unknown", and every possible value lies in the closed
five-string set. -/
theorem c3_http_flavor {T : Type} (req : Request T) :
    lookupAttr (span_for_request req).attrs "http.flavor" =
        some (serializedVersion req.version)
      ∧ serializedVersion .http10 = "1.0"
      ∧ serializedVersion .http11 = "1.1"
      ∧ serializedVersion .http2 = "2"
      ∧ serializedVersion .http3 = "3"
      ∧ serializedVersion .http09 = "unknown"
      ∧ ∀ v : HttpVersion,
          serializedVersion v ∈ (["1.0", "1.1", "2", "3", "unknown"] : List String) := by
  refine ⟨?_, rfl, rfl, rfl, rfl, rfl, ?_⟩
  · rcases req with ⟨m, ⟨sc, ho, pq, fu⟩, v, b⟩
    cases sc <;> cases ho <;> cases pq <;> rfl
  · intro v
    cases v <;> decide

/-- Lowercase a string characterwise. -/
def lowercase (s : String) : String :=
  ⟨s.data.map Char.toLower⟩

/-- C5 counterexample: the URI layer preserves case for nonstandard scheme
tokens, so a request whose URI carries scheme token "FTP" gets http.scheme
set to "FTP" verbatim — not to its lowercase form "ftp" as the claim
requires for every request with a scheme. -/
theorem c5_scheme_not_lowercased :
    lookupAttr
        (span_for_request
          (⟨"GET", ⟨some "FTP", some "host", none, "FTP://host"⟩,
            .http11, ()⟩ : Request Unit)).attrs "http.scheme" = some "FTP"
      ∧ lookupAttr
          (span_for_request
            (⟨"GET", ⟨some "FTP", some "host", none, "FTP://host"⟩,
              .http11, ()⟩ : Request Unit)).attrs "http.scheme" ≠
          some (lowercase "FTP") := by
  decide

/-- C5 (amended): for every request, the http.scheme attribute written by
`span_for_request` is exactly the URI's scheme component (`scheme_str()`)
verbatim when one is present — lowercase for the standard schemes http and
https, case-preserved for nonstandard scheme tokens — and is omitted when
the URI has no scheme. -/
theorem c5_http_scheme_verbatim {T : Type} (req : Request T) :
    lookupAttr (span_for_request req).attrs "http.scheme" = req.uri.scheme := by
  rcases req with ⟨m, ⟨sc, ho, pq, fu⟩, v, b⟩
  cases sc <;> cases ho <;> cases pq <;> rfl

/-- C6: for every response annotated onto a span built by
`span_for_request`, the http.status_text attribute equals the canonical
reason phrase of the status code exactly when one exists and is absent
otherwise; 200 has canonical reason "OK". -/
theorem c6_http_status_text {T U : Type} (req : Request T) (resp : Response U) :
    lookupAttr (annotate_span_for_response (span_for_request req) resp).attrs
        "http.status_text" = canonicalReason resp.status
      ∧ canonicalReason 200 = some "OK" := by
  refine ⟨?_, rfl⟩
  rw [annotate_attrs, lookupAttr_append, lookupAttr_append,
    (span_lookup_response_keys req).1]
  cases canonicalReason resp.status <;> simp [lookupAttr]

/-- C7: both operations are total over their input domain and handle every
input irregularity by attribute omission or a designated fallback literal:
a missing host yields the "<unknown>" name segment and no http.host
attribute, a missing scheme yields no http.scheme attribute, a missing
path yields no http.target attribute, a protocol version outside the
recognized set yields http.flavor "unknown", and a status code with no
canonical reason yields no http.status_text attribute while
http.status_code is still written. -/
theorem c7_totality :
    (∀ (T : Type) (req : Request T), req.uri.host = none →
        (span_for_request req).name = "HTTP " ++ req.method ++ " " ++ "<unknown>"
          ∧ lookupAttr (span_for_request req).attrs "http.host" = none)
      ∧ (∀ (T : Type) (req : Request T), req.uri.scheme = none →
          lookupAttr (span_for_request req).attrs "http.scheme" = none)
      ∧ (∀ (T : Type) (req : Request T), req.uri.pathAndQuery = none →
          lookupAttr (span_for_request req).attrs "http.target" = none)
      ∧ (∀ (T : Type) (req : Request T), req.version = .http09 →
          lookupAttr (span_for_request req).attrs "http.flavor" = some "unknown")
      ∧ (∀ (T U : Type) (req : Request T) (resp : Response U),
          canonicalReason resp.status = none →
            lookupAttr (annotate_span_for_response (span_for_request req) resp).attrs
                "http.status_text" = none
              ∧ lookupAttr (annotate_span_for_response (span_for_request req) resp).attrs
                  "http.status_code" = some (toString resp.status)) := by
  refine ⟨?_, ?_, ?_, ?_, ?_⟩
  · rintro T ⟨m, ⟨sc, ho, pq, fu⟩, v, b⟩ hh
    cases hh
    cases sc <;> cases pq <;> exact ⟨rfl, rfl⟩
  · rintro T ⟨m, ⟨sc, ho, pq, fu⟩, v, b⟩ hs
    cases hs
    cases ho <;> cases pq <;> rfl
  · rintro T ⟨m, ⟨sc, ho, pq, fu⟩, v, b⟩ hp
    cases hp
    cases sc <;> cases ho <;> rfl
  · rintro T ⟨m, ⟨sc, ho, pq, fu⟩, v, b⟩ hv
    cases hv
    cases sc <;> cases ho <;> cases pq <;> rfl
  · intro T U req resp hc
    obtain ⟨ht, hs⟩ := span_lookup_response_keys req
    constructor
    · rw [annotate_attrs, lookupAttr_append, lookupAttr_append, ht, hc]
      simp [lookupAttr]
    · rw [annotate_attrs, lookupAttr_append, lookupAttr_append, hs]
      simp [lookupAttr]

/-- Witness for C7: a fully degenerate request (no scheme, no host, no
path, version HTTP/0.9) and a response with unregistered status 599. -/
theorem c7_totality_witness :
    (span_for_request (⟨"GET", ⟨none, none, none, "nohost"⟩, .http09, ()⟩ : Request Unit)).name
        = "HTTP GET <unknown>"
      ∧ lookupAttr (span_for_request
          (⟨"GET", ⟨none, none, none, "nohost"⟩, .http09, ()⟩ : Request Unit)).attrs
          "http.host" = none
      ∧ lookupAttr (span_for_request
          (⟨"GET", ⟨none, none, none, "nohost"⟩, .http09, ()⟩ : Request Unit)).attrs
          "http.scheme" = none
      ∧ lookupAttr (span_for_request
          (⟨"GET", ⟨none, none, none, "nohost"⟩, .http09, ()⟩ : Request Unit)).attrs
          "http.target" = none
      ∧ lookupAttr (span_for_request
          (⟨"GET", ⟨none, none, none, "nohost"⟩, .http09, ()⟩ : Request Unit)).attrs
          "http.flavor" = some "unknown"
      ∧ lookupAttr (annotate_span_for_response
          (span_for_request (⟨"GET", ⟨none, none, none, "nohost"⟩, .http09, ()⟩ : Request Unit))
          (⟨599, ()⟩ : Response Unit)).attrs "http.status_text" = none
      ∧ lookupAttr (annotate_span_for_response
          (span_for_request (⟨"GET", ⟨none, none, none, "nohost"⟩, .http09, ()⟩ : Request Unit))
          (⟨599, ()⟩ : Response Unit)).attrs "http.status_code" = some (toString 599) := by
  obtain ⟨h1, h2, h3, h4, h5⟩ := c7_totality
  obtain ⟨hn, hh⟩ := h1 Unit ⟨"GET", ⟨none, none, none, "nohost"⟩, .http09, ()⟩ rfl
  obtain ⟨ht, hc⟩ := h5 Unit Unit ⟨"GET", ⟨none, none, none, "nohost"⟩, .http09, ()⟩
    ⟨599, ()⟩ rfl
  exact ⟨hn, hh, h2 Unit _ rfl, h3 Unit _ rfl, h4 Unit _ rfl, ht, hc⟩

/-- The scenario request of the spec: GET https://api.example.com/v1/users?id=5
over HTTP/1.1. -/
def exampleRequest : Request Unit :=
  { method := "GET"
    uri :=
      { scheme := some "https"
        host := some "api.example.com"
        pathAndQuery := some "/v1/users?id=5"
        full := "https://api.example.com/v1/users?id=5" }
    version := .http11
    body := () }

/-- C8: on the scenario request GET https://api.example.com/v1/users?id=5
with version 1.1, `span_for_request` produces name "HTTP GET api.example.com"
and the listed attribute values; annotating with status 200 yields
http.status_code "200", http.status_text "OK" and a non-error status, and
annotating with status 503 yields http.status_code "503" and an error status
with description "503". -/
theorem c8_scenario :
    (span_for_request exampleRequest).name = "HTTP GET api.example.com"
      ∧ lookupAttr (span_for_request exampleRequest).attrs "span.kind" = some "client"
      ∧ lookupAttr (span_for_request exampleRequest).attrs "http.method" = some "GET"
      ∧ lookupAttr (span_for_request exampleRequest).attrs "http.url"
          = some "https://api.example.com/v1/users?id=5"
      ∧ lookupAttr (span_for_request exampleRequest).attrs "http.target"
          = some "/v1/users?id=5"
      ∧ lookupAttr (span_for_request exampleRequest).attrs "http.host"
          = some "api.example.com"
      ∧ lookupAttr (span_for_request exampleRequest).attrs "http.scheme" = some "https"
      ∧ lookupAttr (span_for_request exampleRequest).attrs "http.flavor" = some "1.1"
      ∧ lookupAttr (annotate_span_for_response (span_for_request exampleRequest)
          (⟨200, ()⟩ : Response Unit)).attrs "http.status_code" = some "200"
      ∧ lookupAttr (annotate_span_for_response (span_for_request exampleRequest)
          (⟨200, ()⟩ : Response Unit)).attrs "http.status_text" = some "OK"
      ∧ (annotate_span_for_response (span_for_request exampleRequest)
          (⟨200, ()⟩ : Response Unit)).status = SpanStatus.unset
      ∧ lookupAttr (annotate_span_for_response (span_for_request exampleRequest)
          (⟨503, ()⟩ : Response Unit)).attrs "http.status_code" = some "503"
      ∧ (annotate_span_for_response (span_for_request exampleRequest)
          (⟨503, ()⟩ : Response Unit)).status = SpanStatus.error "503" := by
  decide

/-- C10: neither operation depends on the message body: requests agreeing
on method, URI and protocol version (with arbitrary, possibly differently
typed bodies) produce identical spans, and responses agreeing on status
code produce identical annotations of any span. -/
theorem c10_body_independence :
    (∀ (T U : Type) (r₁ : Request T) (r₂ : Request U),
        r₁.method = r₂.method → r₁.uri = r₂.uri → r₁.version = r₂.version →
          span_for_request r₁ = span_for_request r₂)
      ∧ (∀ (T U : Type) (sp : BoxedSpan) (p₁ : Response T) (p₂ : Response U),
          p₁.status = p₂.status →
            annotate_span_for_response sp p₁ = annotate_span_for_response sp p₂) := by
  constructor
  · intro T U r₁ r₂ hm hu hv
    unfold span_for_request
    rw [hm, hu, hv]
  · intro T U sp p₁ p₂ hs
    unfold annotate_span_for_response
    rw [hs]

/-- Witness for C10: two scenario-shaped requests with bodies of different
types, and two 404 responses with bodies of different types. -/
theorem c10_body_independence_witness :
    span_for_request
        (⟨"GET", ⟨some "https", some "h", some "/p", "u"⟩, .http11, 0⟩ : Request Nat)
        = span_for_request
          (⟨"GET", ⟨some "https", some "h", some "/p", "u"⟩, .http11, "body"⟩ : Request String)
      ∧ annotate_span_for_response (startSpan "s") (⟨404, true⟩ : Response Bool)
          = annotate_span_for_response (startSpan "s") (⟨404, ()⟩ : Response Unit) :=
  ⟨c10_body_independence.1 Nat String _ _ rfl rfl rfl,
    c10_body_independence.2 Bool Unit _ _ _ rfl⟩

end HyperWrapper
